import Mathlib

/-!
Shallow embedding of `src/polyfill.js` (Scroll Timing API polyfill).

Timestamps and JS numbers are modelled as rationals (ℚ); frame counters as
integers (ℤ). DOM nodes / scroll surfaces are identified by natural numbers.
The polyfill's module-level mutable variables (lines 5-12 of the source)
become fields of an explicit `Engine` state record, and each event handler
becomes a state-transition function taking the current clock value `now`
(the source reads `performance.now()`).
-/

namespace ScrollTiming

/-- JS `Math.round x` equals `⌊x + 1/2⌋` (halves round toward +∞). -/
def jsRound (q : ℚ) : ℤ := ⌊q + 1/2⌋

/-- JS coercion of `null` to `0` in arithmetic: `timestamp - lastFrameTime`
with `lastFrameTime === null` yields `timestamp` (line 61). -/
def jsNumOrZero : Option ℚ → ℚ
  | none => 0
  | some q => q

/-- Value universe for modelling the fields of JS objects produced by the
polyfill (strings, numbers, integer counters, nullable node references). -/
inductive JsVal where
  | str (s : String)
  | num (q : ℚ)
  | intv (n : ℤ)
  | node (t : Option Nat)
deriving DecidableEq, Repr

/-- The argument object of the `PerformanceScrollTimingPolyfill` constructor
(source lines 76-84). -/
structure ScrollTimingData where
  startTime : ℚ
  duration : ℚ
  framesExpected : ℤ
  framesProduced : ℤ
  checkerboardTime : ℚ
  scrollSource : String
  target : Option Nat
deriving DecidableEq, Repr

/-- The `PerformanceScrollTimingPolyfill` class instance fields, exactly the
properties assigned in the constructor (source lines 15-31). -/
structure PerformanceScrollTimingPolyfill where
  entryType : String
  name : String
  startTime : ℚ
  duration : ℚ
  endTime : ℚ
  framesExpected : ℤ
  framesProduced : ℤ
  framesDropped : ℤ
  smoothnessScore : ℚ
  checkerboardTime : ℚ
  checkerboardArea : ℚ
  scrollSource : String
  target : Option Nat
deriving DecidableEq, Repr

/-- The constructor body (source lines 15-31): `entryType` and `name` are the
literal "scroll", `endTime = startTime + duration`,
`framesDropped = framesExpected - framesProduced`, and
`smoothnessScore = framesProduced / framesExpected` when
`framesExpected > 0`, else `1`; `checkerboardArea` is hardcoded `0`. -/
def mkEntry (data : ScrollTimingData) : PerformanceScrollTimingPolyfill :=
  { entryType := "scroll"
    name := "scroll"
    startTime := data.startTime
    duration := data.duration
    endTime := data.startTime + data.duration
    framesExpected := data.framesExpected
    framesProduced := data.framesProduced
    framesDropped := data.framesExpected - data.framesProduced
    smoothnessScore :=
      if data.framesExpected > 0 then
        (data.framesProduced : ℚ) / (data.framesExpected : ℚ)
      else 1
    checkerboardTime := data.checkerboardTime
    checkerboardArea := 0
    scrollSource := data.scrollSource
    target := data.target }

/-- The own enumerable properties of an entry object, as (key, value) pairs in
constructor assignment order (source lines 16-30). -/
def entryPairs (e : PerformanceScrollTimingPolyfill) : List (String × JsVal) :=
  [ ("entryType", .str e.entryType)
  , ("name", .str e.name)
  , ("startTime", .num e.startTime)
  , ("duration", .num e.duration)
  , ("endTime", .num e.endTime)
  , ("framesExpected", .intv e.framesExpected)
  , ("framesProduced", .intv e.framesProduced)
  , ("framesDropped", .intv e.framesDropped)
  , ("smoothnessScore", .num e.smoothnessScore)
  , ("checkerboardTime", .num e.checkerboardTime)
  , ("checkerboardArea", .num e.checkerboardArea)
  , ("scrollSource", .str e.scrollSource)
  , ("target", .node e.target) ]

/-- The object literal returned by `toJSON` (source lines 33-43), as
(key, value) pairs in source order. -/
def toJSON (e : PerformanceScrollTimingPolyfill) : List (String × JsVal) :=
  [ ("entryType", .str e.entryType)
  , ("name", .str e.name)
  , ("startTime", .num e.startTime)
  , ("duration", .num e.duration)
  , ("smoothnessScore", .num e.smoothnessScore)
  , ("framesDropped", .intv e.framesDropped)
  , ("scrollSource", .str e.scrollSource) ]

/-- The `currentScroll` object `{ source, target }` (source line 52). -/
structure CurrentScroll where
  source : String
  target : Option Nat
deriving DecidableEq, Repr

/-- The polyfill's module-level mutable state (source lines 5-12 and 96),
plus an `emitted` log recording each entry constructed and handed to the
observer fan-out loop (source lines 76-89): one entry object is built per
successful `endScrollTracking` and that single object is passed to every
registered observer. `scrollTimeout` holds the deadline of the pending
`setTimeout(endScrollTracking, 150)`, if any. The `rafId` handle is not
modelled as data: frame callbacks are modelled as invocations of
`trackFramesCallback`, whose own `!currentScroll` guard (line 58) makes
post-termination callbacks no-ops. -/
structure Engine where
  currentScroll : Option CurrentScroll
  frameCount : ℤ
  expectedFrames : ℤ
  scrollStartTime : Option ℚ
  lastFrameTime : Option ℚ
  checkerboardTime : ℚ
  scrollTimeout : Option ℚ
  emitted : List PerformanceScrollTimingPolyfill
deriving DecidableEq, Repr

/-- Initial module state (source lines 5-12: all nulls and zeros). -/
def initEngine : Engine :=
  { currentScroll := none
    frameCount := 0
    expectedFrames := 0
    scrollStartTime := none
    lastFrameTime := none
    checkerboardTime := 0
    scrollTimeout := none
    emitted := [] }

/-- `startScrollTracking(source, target)` (source lines 46-54): resets the
counters, stamps the start and last-frame times with `performance.now()`,
and installs the `currentScroll` object. (`trackFrames()` only schedules the
next frame callback.) -/
def startScrollTracking (now : ℚ) (source : String) (target : Option Nat)
    (s : Engine) : Engine :=
  { s with
    scrollStartTime := some now
    frameCount := 0
    expectedFrames := 0
    lastFrameTime := some now
    checkerboardTime := 0
    currentScroll := some { source := source, target := target } }

/-- The `requestAnimationFrame` callback body inside `trackFrames` (source
lines 57-67): bail out when `currentScroll` is null; otherwise increment
`frameCount`, add `max(1, round(frameDuration / (1000/60)))` to
`expectedFrames` — the target frame duration is the hardcoded constant
`1000 / 60` ("Assuming 60fps target", line 62) — and record the timestamp. -/
def trackFramesCallback (timestamp : ℚ) (s : Engine) : Engine :=
  match s.currentScroll with
  | none => s
  | some _ =>
    let frameDuration := timestamp - jsNumOrZero s.lastFrameTime
    let targetFrameDuration : ℚ := 1000 / 60
    { s with
      frameCount := s.frameCount + 1
      expectedFrames :=
        s.expectedFrames + max 1 (jsRound (frameDuration / targetFrameDuration))
      lastFrameTime := some timestamp }

/-- `endScrollTracking()` (source lines 70-93): return early unless both
`currentScroll` and `scrollStartTime` are truthy (line 71; note a numeric
`scrollStartTime` of `0` is falsy in JS); otherwise build the entry from the
accumulated state, hand it to the observer fan-out (modelled by appending to
`emitted`), and null out `currentScroll` and `scrollStartTime`. -/
def endScrollTracking (now : ℚ) (s : Engine) : Engine :=
  match s.currentScroll, s.scrollStartTime with
  | some cs, some st =>
    if st = 0 then s
    else
      let entry := mkEntry
        { startTime := st
          duration := now - st
          framesExpected := s.expectedFrames
          framesProduced := s.frameCount
          checkerboardTime := s.checkerboardTime
          scrollSource := cs.source
          target := cs.target }
      { s with
        emitted := s.emitted ++ [entry]
        currentScroll := none
        scrollStartTime := none }
  | _, _ => s

/-- The `document` `scroll` listener (source lines 98-105): when no scroll is
being tracked, start tracking with source literal `'unknown'` and the event's
target; then unconditionally cancel and re-arm the 150 ms idle timeout. The
scrolled element's offsets (`offX`, `offY`) are part of the host event context
but the handler never reads them. -/
def scrollEventStep (now : ℚ) (target : Option Nat) (s : Engine) : Engine :=
  let s1 :=
    match s.currentScroll with
    | none => startScrollTracking now "unknown" target s
    | some _ => s
  { s1 with scrollTimeout := some (now + 150) }

/-- The `document` `wheel` listener (source lines 107-111): start tracking
with source `'wheel'` when idle; it does not touch the idle timeout. -/
def wheelEventStep (now : ℚ) (target : Option Nat) (s : Engine) : Engine :=
  match s.currentScroll with
  | none => startScrollTracking now "wheel" target s
  | some _ => s

/-- The `document` `touchstart` listener (source lines 113-117): start
tracking with source `'touch'` when idle; it does not touch the idle
timeout. -/
def touchstartEventStep (now : ℚ) (target : Option Nat) (s : Engine) : Engine :=
  match s.currentScroll with
  | none => startScrollTracking now "touch" target s
  | some _ => s

/-- One host-dispatched callback: a scroll/wheel/touchstart event (carrying
its target surface and, for scroll, the element's current offsets, which the
code never reads), a `requestAnimationFrame` callback with its timestamp, or
an invocation of `endScrollTracking` (the `setTimeout` callback firing). -/
inductive Event where
  | scroll (t : ℚ) (target : Option Nat) (offX offY : ℚ)
  | wheel (t : ℚ) (target : Option Nat)
  | touchstart (t : ℚ) (target : Option Nat)
  | frame (t : ℚ)
  | timerFire (t : ℚ)
deriving DecidableEq, Repr

/-- The clock value at which an event is dispatched. -/
def eventTime : Event → ℚ
  | .scroll t _ _ _ => t
  | .wheel t _ => t
  | .touchstart t _ => t
  | .frame t => t
  | .timerFire t => t

/-- Dispatch one event to the corresponding handler. -/
def stepEvent (s : Engine) (ev : Event) : Engine :=
  match ev with
  | .scroll t target _ _ => scrollEventStep t target s
  | .wheel t target => wheelEventStep t target s
  | .touchstart t target => touchstartEventStep t target s
  | .frame t => trackFramesCallback t s
  | .timerFire t => endScrollTracking t s

/-- Run a sequence of host callbacks from the initial module state. The
`timerFire` events let the scheduler invoke `endScrollTracking` at arbitrary
times, which over-approximates the real one-shot 150 ms timeout. -/
def runEvents (evs : List Event) : Engine :=
  evs.foldl stepEvent initEngine

/-- Event times are nondecreasing along the trace (the host clock
`performance.now()` is monotonic and callbacks run in dispatch order). -/
def Chronological (evs : List Event) : Prop :=
  evs.Pairwise (fun a b => eventTime a ≤ eventTime b)

instance : DecidablePred Chronological := fun evs =>
  inferInstanceAs (Decidable (evs.Pairwise _))

/-- Fire the pending `setTimeout(endScrollTracking, 150)` callback if its
deadline is due by time `t`: the callback runs at its deadline and the
one-shot timeout is consumed. -/
def fireIfDue (t : ℚ) (s : Engine) : Engine :=
  match s.scrollTimeout with
  | some d => if d ≤ t then endScrollTracking d { s with scrollTimeout := none } else s
  | none => s

/-- Process one `scroll` notification `(time, target)` under real timer
semantics: a previously armed idle timeout whose deadline precedes this
notification fires first. -/
def stepScrollNotification (s : Engine) (ev : ℚ × Option Nat) : Engine :=
  scrollEventStep ev.1 ev.2 (fireIfDue ev.1 s)

/-- After the last notification, the pending timeout (if any) fires at its
deadline. -/
def flushTimer (s : Engine) : Engine :=
  match s.scrollTimeout with
  | some d => endScrollTracking d { s with scrollTimeout := none }
  | none => s

/-- Run a time-ordered sequence of `scroll` notifications from the initial
state under `setTimeout` semantics: each notification cancels and re-arms the
150 ms idle timeout (source lines 103-104), which fires at its deadline when
no later notification re-arms it first. -/
def runScrollNotifications (evs : List (ℚ × Option Nat)) : Engine :=
  flushTimer (evs.foldl stepScrollNotification initEngine)

/-! ### Wrapped observer registration (source lines 119-148) -/

/-- The options object passed to `observer.observe` (`type` and `entryTypes`
properties, each possibly absent). -/
structure ObserveOptions where
  type : Option String
  entryTypes : Option (List String)
deriving DecidableEq, Repr

/-- JS `!` applied to a variable holding a string or `undefined`: `undefined`
and the empty string are falsy, every other string is truthy. -/
def jsNotStr : Option String → Bool
  | none => true
  | some s => s == ""

/-- JS strict equality `===` between a Boolean operand and a String operand is
always `false`, whatever the values, because the operands have different
types. This models the source's rethrow test `!options.type === 'scroll'`
(line 135), where `!` binds tighter than `===`, so the boolean
`!options.type` is compared against the string `'scroll'`. -/
def jsStrictEqBoolStr (_ : Bool) (_ : String) : Bool := false

/-- The registration filter (source line 127):
`options.type === 'scroll' || options.entryTypes?.includes('scroll')`
(an absent `entryTypes` short-circuits to a falsy `undefined`). -/
def optionsWantScroll (o : ObserveOptions) : Bool :=
  o.type == some "scroll" || (o.entryTypes.getD []).contains "scroll"

/-- The catch-clause rethrow condition (source line 135). -/
def observeRethrowGuard (o : ObserveOptions) : Bool :=
  jsStrictEqBoolStr (jsNotStr o.type) "scroll"

/-- The wrapped `observer.observe(options)` (source lines 126-137): register
the callback locally when the options mention the synthetic "scroll" type,
then call the external (native) `observe`, whose outcome is supplied as
`externalResult`; on an external exception, rethrow only when the guard on
line 135 holds. Returns the updated local registry and the outcome seen by
the caller. -/
def observeWrapped (o : ObserveOptions) (externalResult : Except String Unit)
    (registry : List ObserveOptions) :
    List ObserveOptions × Except String Unit :=
  let registry1 := if optionsWantScroll o then registry ++ [o] else registry
  match externalResult with
  | .ok _ => (registry1, .ok ())
  | .error msg =>
    if observeRethrowGuard o then (registry1, .error msg)
    else (registry1, .ok ())

/-! ### Refresh-rate estimator, modelled from the spec

The spec (§4.1) and the repository README ("The current polyfill measures the
actual refresh rate on page load using requestAnimationFrame sampling and
uses that for frame expectations") describe a refresh-rate estimator, but
`src/polyfill.js` contains none — `trackFrames` hardcodes
`targetFrameDuration = 1000 / 60` (line 62, "Assuming 60fps target"). The
estimator is therefore modelled here from the spec's words, to compare the
claimed frame-expectation rule against the code's. -/

/-- Insert a rational into an ascending sorted list. -/
def insertSorted (x : ℚ) : List ℚ → List ℚ
  | [] => [x]
  | y :: ys => if x ≤ y then x :: y :: ys else y :: insertSorted x ys

/-- Insertion sort, ascending. -/
def sortedQ (l : List ℚ) : List ℚ := l.foldr insertSorted []

/-- Modelled from the spec: the median of a list of deltas (middle element of
the sorted list, mean of the two middles for even length). -/
def medianQ (l : List ℚ) : ℚ :=
  let s := sortedQ l
  let n := s.length
  if n = 0 then 0
  else if n % 2 = 1 then s.getD (n / 2) 0
  else (s.getD (n / 2 - 1) 0 + s.getD (n / 2) 0) / 2

/-- Modelled from the spec: the Refresh-Rate Estimator (spec §4.1), absent
from `src/polyfill.js`. Deltas outside (0 ms, 100 ms) are discarded; once at
least 10 valid deltas are collected the estimate is `1000 / median(valid)`;
otherwise the previous (default 60) estimate is retained. -/
def specEstimateHz (deltas : List ℚ) : ℚ :=
  let valid := deltas.filter (fun d => decide (0 < d ∧ d < 100))
  if 10 ≤ valid.length then 1000 / medianQ valid else 60

/-- The claimed expected-frame increment rule:
`max(1, round(elapsed / (1000 / estimatorHz)))` with the estimator's current
value. Written from the spec's words, for comparison with
`expectedIncrement`. -/
def specExpectedIncrement (elapsed hz : ℚ) : ℤ :=
  max 1 (jsRound (elapsed / (1000 / hz)))

/-- The code's expected-frame increment (source line 63):
`Math.max(1, Math.round(frameDuration / targetFrameDuration))` with the
hardcoded `targetFrameDuration = 1000 / 60`. -/
def expectedIncrement (frameDuration : ℚ) : ℤ :=
  max 1 (jsRound (frameDuration / (1000 / 60)))

/-- The serialization field set required by the spec (§6), written from the
spec's words for comparison with the code's `toJSON`. -/
def specSerializationFields : List String :=
  [ "entryType", "name", "startTime", "firstFrameTime", "duration"
  , "framesExpected", "framesProduced", "framesDropped", "checkerboardTime"
  , "scrollSource", "target", "distanceX", "distanceY" ]

/-- Whether surface `surface` has a live interaction state: the single
`currentScroll` slot is occupied and targets that surface. -/
def liveStateFor (s : Engine) (surface : Nat) : Bool :=
  match s.currentScroll with
  | some cs => cs.target == some surface
  | none => false

/-- Replace a scroll event's offsets with zeros, leaving everything else
(and every other event kind) unchanged. -/
def eraseOffsets : Event → Event
  | .scroll t target _ _ => .scroll t target 0 0
  | ev => ev

/-! ### Run invariants -/

/-- Counter bounds satisfied by every emitted entry: nonnegative produced
count bounded by the expected count, `framesDropped` equal to their
difference, and a smoothness score in [0, 1]. -/
def GoodCounters (e : PerformanceScrollTimingPolyfill) : Prop :=
  0 ≤ e.framesProduced ∧ e.framesProduced ≤ e.framesExpected ∧
  e.framesDropped = e.framesExpected - e.framesProduced ∧
  0 ≤ e.smoothnessScore ∧ e.smoothnessScore ≤ 1

/-- Run invariant on the frame counters: the produced count is nonnegative
and never exceeds the expected count, and every entry emitted so far
satisfies `GoodCounters`. -/
def CounterInv (s : Engine) : Prop :=
  0 ≤ s.frameCount ∧ s.frameCount ≤ s.expectedFrames ∧
  ∀ e ∈ s.emitted, GoodCounters e

lemma mkEntry_goodCounters (d : ScrollTimingData)
    (h0 : 0 ≤ d.framesProduced) (h1 : d.framesProduced ≤ d.framesExpected) :
    GoodCounters (mkEntry d) := by
  refine ⟨h0, h1, rfl, ?_, ?_⟩
  · by_cases hex : d.framesExpected > 0
    · simp only [mkEntry, if_pos hex]
      exact div_nonneg (by exact_mod_cast h0) (by exact_mod_cast hex.le)
    · simp only [mkEntry, if_neg hex]
      norm_num
  · by_cases hex : d.framesExpected > 0
    · simp only [mkEntry, if_pos hex]
      rw [div_le_one (by exact_mod_cast hex)]
      exact_mod_cast h1
    · simp only [mkEntry, if_neg hex]
      norm_num

lemma counterInv_step (s : Engine) (ev : Event) (h : CounterInv s) :
    CounterInv (stepEvent s ev) := by
  obtain ⟨h0, h1, hall⟩ := h
  cases ev with
  | scroll t target ox oy =>
    simp only [stepEvent]
    unfold scrollEventStep
    split
    · exact ⟨le_refl 0, le_refl 0, hall⟩
    · exact ⟨h0, h1, hall⟩
  | wheel t target =>
    simp only [stepEvent]
    unfold wheelEventStep
    split
    · exact ⟨le_refl 0, le_refl 0, hall⟩
    · exact ⟨h0, h1, hall⟩
  | touchstart t target =>
    simp only [stepEvent]
    unfold touchstartEventStep
    split
    · exact ⟨le_refl 0, le_refl 0, hall⟩
    · exact ⟨h0, h1, hall⟩
  | frame t =>
    simp only [stepEvent]
    unfold trackFramesCallback
    split
    · exact ⟨h0, h1, hall⟩
    · refine ⟨show (0:ℤ) ≤ s.frameCount + 1 by linarith, ?_, hall⟩
      exact add_le_add h1 (le_max_left 1 _)
  | timerFire t =>
    simp only [stepEvent]
    unfold endScrollTracking
    split
    · split
      · exact ⟨h0, h1, hall⟩
      · refine ⟨h0, h1, ?_⟩
        intro e he
        rcases List.mem_append.mp he with hmem | hmem
        · exact hall e hmem
        · rw [List.mem_singleton.mp hmem]
          exact mkEntry_goodCounters _ h0 h1
    · exact ⟨h0, h1, hall⟩

lemma counterInv_foldl (evs : List Event) :
    ∀ s : Engine, CounterInv s → CounterInv (evs.foldl stepEvent s) := by
  induction evs with
  | nil => exact fun s h => h
  | cons ev rest ih => exact fun s h => ih _ (counterInv_step s ev h)

lemma runEvents_counterInv (evs : List Event) : CounterInv (runEvents evs) :=
  counterInv_foldl evs initEngine
    ⟨le_refl 0, le_refl 0, by intro e he; simp [initEngine] at he⟩

/-- Time-aware run invariant: a live start time never lies in the future of
clock value `t`, and every emitted entry has a nonnegative duration. -/
def TimeInv (t : ℚ) (s : Engine) : Prop :=
  (∀ st, s.scrollStartTime = some st → st ≤ t) ∧
  ∀ e ∈ s.emitted, 0 ≤ e.duration

lemma timeInv_step (t : ℚ) (s : Engine) (ev : Event)
    (hi : TimeInv t s) (ht : t ≤ eventTime ev) :
    TimeInv (eventTime ev) (stepEvent s ev) := by
  obtain ⟨hstart, hdur⟩ := hi
  cases ev with
  | scroll tev target ox oy =>
    simp only [stepEvent, eventTime] at ht ⊢
    unfold scrollEventStep
    split
    · refine ⟨?_, hdur⟩
      intro st hst
      simp only [startScrollTracking] at hst
      exact le_of_eq (Option.some.inj hst).symm
    · exact ⟨fun st hst => le_trans (hstart st hst) ht, hdur⟩
  | wheel tev target =>
    simp only [stepEvent, eventTime] at ht ⊢
    unfold wheelEventStep
    split
    · refine ⟨?_, hdur⟩
      intro st hst
      simp only [startScrollTracking] at hst
      exact le_of_eq (Option.some.inj hst).symm
    · exact ⟨fun st hst => le_trans (hstart st hst) ht, hdur⟩
  | touchstart tev target =>
    simp only [stepEvent, eventTime] at ht ⊢
    unfold touchstartEventStep
    split
    · refine ⟨?_, hdur⟩
      intro st hst
      simp only [startScrollTracking] at hst
      exact le_of_eq (Option.some.inj hst).symm
    · exact ⟨fun st hst => le_trans (hstart st hst) ht, hdur⟩
  | frame tev =>
    simp only [stepEvent, eventTime] at ht ⊢
    unfold trackFramesCallback
    split
    · exact ⟨fun st hst => le_trans (hstart st hst) ht, hdur⟩
    · exact ⟨fun st hst => le_trans (hstart st hst) ht, hdur⟩
  | timerFire tev =>
    simp only [stepEvent, eventTime] at ht ⊢
    unfold endScrollTracking
    split
    case _ cs st heqcs heqst =>
      split
      · exact ⟨fun st hst => le_trans (hstart st hst) ht, hdur⟩
      · refine ⟨?_, ?_⟩
        · intro st hst
          simp at hst
        · intro e he
          rcases List.mem_append.mp he with hmem | hmem
          · exact hdur e hmem
          · rw [List.mem_singleton.mp hmem]
            have hle : st ≤ tev := le_trans (hstart st heqst) ht
            simp only [mkEntry]
            linarith
    case _ =>
      exact ⟨fun st hst => le_trans (hstart st hst) ht, hdur⟩

lemma timeInv_foldl (evs : List Event) :
    ∀ (s : Engine) (t : ℚ), TimeInv t s →
      (∀ ev ∈ evs, t ≤ eventTime ev) → Chronological evs →
      ∀ e ∈ (evs.foldl stepEvent s).emitted, 0 ≤ e.duration := by
  induction evs with
  | nil => exact fun s t hi _ _ => hi.2
  | cons ev rest ih =>
    intro s t hi hle hch
    unfold Chronological at hch
    have hp := List.pairwise_cons.mp hch
    exact ih (stepEvent s ev) (eventTime ev)
      (timeInv_step t s ev hi (hle ev (List.mem_cons_self ev rest)))
      (fun e he => hp.1 e he) hp.2

lemma runEvents_durations (evs : List Event) (h : Chronological evs) :
    ∀ e ∈ (runEvents evs).emitted, 0 ≤ e.duration := by
  cases evs with
  | nil => intro e he; simp [runEvents, initEngine] at he
  | cons ev rest =>
    have hch := h
    unfold Chronological at hch
    have hp := List.pairwise_cons.mp hch
    refine timeInv_foldl (ev :: rest) initEngine (eventTime ev) ?_ ?_ h
    · exact ⟨by intro st hst; simp [initEngine] at hst,
             by intro e he; simp [initEngine] at he⟩
    · intro e he
      rcases List.mem_cons.mp he with rfl | hmem
      · exact le_refl _
      · exact hp.1 e hmem

/-! ### Sample runs used by concrete theorems -/

/-- A scroll at t=10 on surface 1, one frame callback at t=26, and the
`endScrollTracking` timeout firing at t=176. -/
def c5Events : List Event := [.scroll 10 (some 1) 0 0, .frame 26, .timerFire 176]

/-- The entry emitted by `c5Events`: one frame produced, one expected,
duration 166 from start 10 to end 176. -/
def sampleEntry : PerformanceScrollTimingPolyfill :=
  mkEntry { startTime := 10, duration := 166, framesExpected := 1,
            framesProduced := 1, checkerboardTime := 0,
            scrollSource := "unknown", target := some 1 }

/-- Movement on surface 1 at t=10, then movement on a different surface 2 at
t=20 while surface 1's interaction is live. -/
def c3Run : Engine := runEvents [.scroll 10 (some 1) 0 0, .scroll 20 (some 2) 0 0]

/-- A single movement notification at t=10 on surface 1: leaves a live
interaction state. -/
def c3Live : Engine := runEvents [.scroll 10 (some 1) 0 0]

/-- The claim C7 delta scenario: baseline offsets (0,0) at t=10, offsets
(−5,10) at t=20 (deltas dx=−5, dy=10), offsets (−2,8) at t=30 (deltas dx=3,
dy=−2), then the idle timeout at t=180. -/
def c7Run : Engine := runEvents
  [ .scroll 10 (some 1) 0 0
  , .scroll 20 (some 1) (-5) 10
  , .scroll 30 (some 1) (-2) 8
  , .timerFire 180 ]

/-- The entry `c7Run` emits: no frames, duration 170, and no distance
fields at all. -/
def c7Entry : PerformanceScrollTimingPolyfill :=
  mkEntry { startTime := 10, duration := 170, framesExpected := 0,
            framesProduced := 0, checkerboardTime := 0,
            scrollSource := "unknown", target := some 1 }

/-- The entry emitted by the C9 scenario (movements at s0, s0+50, s0+100,
idle timeout at s0+250). -/
def c9Entry (s0 : ℚ) (tgt : Option Nat) : PerformanceScrollTimingPolyfill :=
  mkEntry { startTime := s0, duration := 250, framesExpected := 0,
            framesProduced := 0, checkerboardTime := 0,
            scrollSource := "unknown", target := tgt }

lemma c5Run_emitted : (runEvents c5Events).emitted = [sampleEntry] := by
  norm_num [runEvents, c5Events, sampleEntry, stepEvent, scrollEventStep,
    startScrollTracking, trackFramesCallback, endScrollTracking, initEngine,
    jsNumOrZero, jsRound, mkEntry]

lemma sampleEntry_mem : sampleEntry ∈ (runEvents c5Events).emitted := by
  rw [c5Run_emitted]
  exact List.mem_singleton_self _

lemma c7Run_emitted : c7Run.emitted = [c7Entry] := by
  norm_num [runEvents, c7Run, c7Entry, stepEvent, scrollEventStep,
    startScrollTracking, trackFramesCallback, endScrollTracking, initEngine,
    jsNumOrZero, jsRound, mkEntry]

/-! ### Claim theorems -/

/-- C1: the claim says external `observe` errors propagate unchanged for
every non-"scroll" registration and are swallowed only for the synthetic
"scroll" type. In the code the rethrow test `!options.type === 'scroll'`
(line 135) compares the boolean `!options.type` against a string, so it is
always false and every external error is swallowed, whatever the options —
contradicting both the claim and the code's own comment ("Ignore if 'scroll'
type is not supported natively"). This theorem evaluates the wrapped
`observe`: for every options object, an external failure is reported to the
caller as success. -/
theorem C1_observe_swallows_all_errors (o : ObserveOptions) (msg : String)
    (registry : List ObserveOptions) :
    (observeWrapped o (.error msg) registry).2 = .ok () := by
  unfold observeWrapped observeRethrowGuard jsStrictEqBoolStr
  simp

/-- C2: the claim says a movement notification starting an interaction with
no input hint yields scrollSource "other", and every emitted scrollSource is
in {touch, wheel, keyboard, other, programmatic}. The code instead calls
`startScrollTracking('unknown', e.target)` (line 100): the record emitted
after a plain scroll event carries scrollSource "unknown", which is not in
the documented value set. -/
theorem C2_scrollSource_unknown :
    ((runScrollNotifications [(100, some 1)]).emitted.map
        PerformanceScrollTimingPolyfill.scrollSource = ["unknown"]) ∧
    ("unknown" ∉ ["touch", "wheel", "keyboard", "other", "programmatic"]) := by
  decide

/-- C3 counterexample: after movement on surface 1 at t=10 and movement on a
different surface 2 at t=20, the claim says surface 2 gets its own (created
or updated) separate state; in the code the single global `currentScroll`
still tracks surface 1, no state exists for surface 2, and the surface-2
movement was absorbed into surface 1's interaction. -/
theorem C3_counterexample :
    liveStateFor c3Run 2 = false ∧ liveStateFor c3Run 1 = true ∧
    c3Run.currentScroll = some { source := "unknown", target := some 1 } ∧
    c3Run.emitted = [] := by
  decide

/-- C3 (amended): there is at most one live interaction state globally — the
single `currentScroll` slot — not one per surface; a movement notification
while any state is live (on the same or a different surface) only re-arms
the idle timer of the existing state, never creating a duplicate or a
separate per-surface state. -/
theorem C3_single_global_state :
    (∀ (s : Engine) (a b : Nat),
        liveStateFor s a = true → liveStateFor s b = true → a = b) ∧
    (∀ (s : Engine) (now : ℚ) (target : Option Nat),
        s.currentScroll.isSome = true →
          scrollEventStep now target s = { s with scrollTimeout := some (now + 150) }) := by
  constructor
  · intro s a b ha hb
    unfold liveStateFor at ha hb
    cases hcs : s.currentScroll with
    | none => rw [hcs] at ha; simp at ha
    | some cs =>
      rw [hcs] at ha hb
      simp at ha hb
      rw [ha] at hb
      exact Option.some.inj hb
  · intro s now target h
    obtain ⟨cs, hcs⟩ := Option.isSome_iff_exists.mp h
    simp [scrollEventStep, hcs]

theorem C3_single_global_state_witness :
    (1 = 1) ∧
    scrollEventStep 20 (some 2) c3Live = { c3Live with scrollTimeout := some (20 + 150) } :=
  ⟨C3_single_global_state.1 c3Live 1 1 (by decide) (by decide),
   C3_single_global_state.2 c3Live 20 (some 2) (by decide)⟩

/-- C4: the claim says the expected-frame increment uses the refresh-rate
estimator's current value (1000 / median of valid frame deltas, default 60).
The code's `trackFrames` hardcodes `targetFrameDuration = 1000 / 60`
("Assuming 60fps target", line 62) and no estimator exists in
`src/polyfill.js`, although the repository README documents one. On a
31.25 ms frame delta in an environment whose measured rate is 32 Hz (median
delta 31.25 ms over 60 samples), the claimed rule increments by 1 while the
code increments by 2. -/
theorem C4_hardcoded_60fps_not_estimator :
    expectedIncrement (125/4) = 2 ∧
    specEstimateHz (List.replicate 10 (125/4)) = 32 ∧
    specExpectedIncrement (125/4) (specEstimateHz (List.replicate 10 (125/4))) = 1 := by
  have hest : specEstimateHz (List.replicate 10 ((125:ℚ)/4)) = 32 := by
    norm_num [specEstimateHz, medianQ, sortedQ, insertSorted, List.replicate,
      List.filter_cons, decide_eq_true_eq]
  refine ⟨?_, hest, ?_⟩
  · norm_num [expectedIncrement, jsRound]
  · rw [hest]
    norm_num [specExpectedIncrement, jsRound]

/-- C5 counterexample: the claim asserts every emitted record satisfies
`firstFrameTime ≥ startTime`, with `firstFrameTime` set on the first frame
callback to `max(now(), startTime)`. The code never sets any such field: the
concrete record emitted by the run `c5Events` (which includes a frame
callback) has no "firstFrameTime" property at all. -/
theorem C5_counterexample :
    sampleEntry ∈ (runEvents c5Events).emitted ∧
    "firstFrameTime" ∉ (entryPairs sampleEntry).map Prod.fst :=
  ⟨sampleEntry_mem, by decide⟩

/-- C5 (amended): for every chronological run, every emitted record has
nonnegative integer frame counters and nonnegative duration; emitted records
carry no firstFrameTime field. -/
theorem C5_record_bounds (evs : List Event) (hch : Chronological evs)
    (e : PerformanceScrollTimingPolyfill) (he : e ∈ (runEvents evs).emitted) :
    0 ≤ e.framesExpected ∧ 0 ≤ e.framesProduced ∧ 0 ≤ e.duration ∧
    "firstFrameTime" ∉ (entryPairs e).map Prod.fst := by
  obtain ⟨-, -, hall⟩ := runEvents_counterInv evs
  obtain ⟨h0, h1, -, -, -⟩ := hall e he
  refine ⟨le_trans h0 h1, h0, runEvents_durations evs hch e he, ?_⟩
  simp [entryPairs]

theorem C5_record_bounds_witness :
    Chronological c5Events ∧ sampleEntry ∈ (runEvents c5Events).emitted ∧
    (0 ≤ sampleEntry.framesExpected ∧ 0 ≤ sampleEntry.framesProduced ∧
     0 ≤ sampleEntry.duration ∧
     "firstFrameTime" ∉ (entryPairs sampleEntry).map Prod.fst) :=
  ⟨by decide, sampleEntry_mem,
   C5_record_bounds c5Events (by decide) sampleEntry sampleEntry_mem⟩

/-- C6 counterexample: the claim says serialization reproduces exactly the
13-field spec set. The code's `toJSON` omits the spec field
"firstFrameTime" (among others) and adds "smoothnessScore", which the spec
set does not contain. -/
theorem C6_counterexample :
    "firstFrameTime" ∈ specSerializationFields ∧
    "firstFrameTime" ∉ (toJSON sampleEntry).map Prod.fst ∧
    "smoothnessScore" ∈ (toJSON sampleEntry).map Prod.fst ∧
    "smoothnessScore" ∉ specSerializationFields := by
  decide

/-- C6 (amended): serializing any emitted record produces exactly the fields
entryType, name, startTime, duration, smoothnessScore, framesDropped,
scrollSource — no more, no less. -/
theorem C6_toJSON_fields (e : PerformanceScrollTimingPolyfill) :
    (toJSON e).map Prod.fst =
      [ "entryType", "name", "startTime", "duration", "smoothnessScore"
      , "framesDropped", "scrollSource" ] := rfl

/-- C7 counterexample: after the claim's delta scenario ((dx=−5,dy=10) then
(dx=3,dy=−2)), the emitted record cannot have distanceX = −2 and
distanceY = 8: it has no distanceX or distanceY field at all, because the
code never reads scroll offsets. -/
theorem C7_counterexample :
    c7Run.emitted = [c7Entry] ∧
    "distanceX" ∉ (entryPairs c7Entry).map Prod.fst ∧
    "distanceY" ∉ (entryPairs c7Entry).map Prod.fst :=
  ⟨c7Run_emitted, by decide, by decide⟩

/-- C7 (amended): the polyfill tracks no scroll distances: runs differing
only in the offsets carried by movement notifications produce identical
engine states (the handler reads only the event target), and no record
carries distanceX or distanceY fields. -/
theorem C7_no_distance_tracking :
    (∀ evs : List Event, runEvents (evs.map eraseOffsets) = runEvents evs) ∧
    (∀ e : PerformanceScrollTimingPolyfill,
        "distanceX" ∉ (entryPairs e).map Prod.fst ∧
        "distanceY" ∉ (entryPairs e).map Prod.fst) := by
  constructor
  · have key : ∀ (l : List Event) (s : Engine),
        (l.map eraseOffsets).foldl stepEvent s = l.foldl stepEvent s := by
      intro l
      induction l with
      | nil => intro s; rfl
      | cons ev rest ih =>
        intro s
        have hstep : stepEvent s (eraseOffsets ev) = stepEvent s ev := by
          cases ev <;> rfl
        simp only [List.map_cons, List.foldl_cons, hstep, ih]
    intro evs
    exact key evs initEngine
  · intro e
    constructor <;> simp [entryPairs]

/-- C8: for a live state with a truthy start time, the first trigger of
`endScrollTracking` emits exactly one record and destroys the state
(`currentScroll` becomes null), and any subsequent trigger — or a racing
frame callback — is a no-op. -/
theorem C8_end_emits_once (s : Engine) (cs : CurrentScroll) (st : ℚ)
    (now1 now2 tf : ℚ)
    (hcs : s.currentScroll = some cs) (hst : s.scrollStartTime = some st)
    (hne : st ≠ 0) :
    (endScrollTracking now1 s).emitted.length = s.emitted.length + 1 ∧
    (endScrollTracking now1 s).currentScroll = none ∧
    endScrollTracking now2 (endScrollTracking now1 s) = endScrollTracking now1 s ∧
    trackFramesCallback tf (endScrollTracking now1 s) = endScrollTracking now1 s := by
  have h1 : endScrollTracking now1 s =
      { s with
        emitted := s.emitted ++ [mkEntry
          { startTime := st, duration := now1 - st,
            framesExpected := s.expectedFrames, framesProduced := s.frameCount,
            checkerboardTime := s.checkerboardTime,
            scrollSource := cs.source, target := cs.target }],
        currentScroll := none, scrollStartTime := none } := by
    unfold endScrollTracking
    rw [hcs, hst]
    simp [hne]
  rw [h1]
  exact ⟨by simp, rfl, rfl, rfl⟩

theorem C8_end_emits_once_witness :
    (endScrollTracking 200 c3Live).emitted.length = c3Live.emitted.length + 1 ∧
    (endScrollTracking 200 c3Live).currentScroll = none ∧
    endScrollTracking 300 (endScrollTracking 200 c3Live) = endScrollTracking 200 c3Live ∧
    trackFramesCallback 250 (endScrollTracking 200 c3Live) = endScrollTracking 200 c3Live :=
  C8_end_emits_once c3Live { source := "unknown", target := some 1 } 10 200 300 250
    (by decide) (by decide) (by decide)

/-- C9: movement notifications at s0, s0+50, s0+100 (any positive clock
origin s0), each re-arming the 150 ms idle timeout, terminate at s0+250 with
exactly one emitted record whose duration is 250 = (s0+250) − s0 and whose
endTime is s0+250. -/
theorem C9_idle_timer_rearm (s0 : ℚ) (tgt : Option Nat) (hpos : 0 < s0) :
    (runScrollNotifications [(s0, tgt), (s0 + 50, tgt), (s0 + 100, tgt)]).emitted
      = [c9Entry s0 tgt] := by
  have hne : ¬ (s0 = 0) := ne_of_gt hpos
  have hA : ¬ (s0 + 150 ≤ s0 + 50) := by intro h; linarith
  have hB : ¬ (s0 + 50 + 150 ≤ s0 + 100) := by intro h; linarith
  have hdur : s0 + 100 + 150 - s0 = 250 := by ring
  simp [runScrollNotifications, stepScrollNotification, fireIfDue, flushTimer,
        scrollEventStep, startScrollTracking, endScrollTracking, initEngine,
        c9Entry, hA, hB, hne, hdur]

theorem C9_idle_timer_rearm_witness :
    (0:ℚ) < 10 ∧
    (runScrollNotifications [((10:ℚ), some 1), (10 + 50, some 1), (10 + 100, some 1)]).emitted
      = [c9Entry 10 (some 1)] :=
  ⟨by norm_num, C9_idle_timer_rearm 10 (some 1) (by norm_num)⟩

/-- C10: for every run and every emitted record, framesDropped
(= framesExpected − framesProduced) is nonnegative and the stored
smoothnessScore lies in [0, 1]: both counters start at 0 and each frame
callback adds 1 to the produced count and at least 1 to the expected
count. -/
theorem C10_dropped_nonneg_smoothness_unit (evs : List Event)
    (e : PerformanceScrollTimingPolyfill) (he : e ∈ (runEvents evs).emitted) :
    0 ≤ e.framesDropped ∧ 0 ≤ e.smoothnessScore ∧ e.smoothnessScore ≤ 1 := by
  obtain ⟨-, -, hall⟩ := runEvents_counterInv evs
  obtain ⟨h0, h1, hd, hs0, hs1⟩ := hall e he
  exact ⟨by rw [hd]; omega, hs0, hs1⟩

theorem C10_dropped_nonneg_smoothness_unit_witness :
    sampleEntry ∈ (runEvents c5Events).emitted ∧
    (0 ≤ sampleEntry.framesDropped ∧ 0 ≤ sampleEntry.smoothnessScore ∧
     sampleEntry.smoothnessScore ≤ 1) :=
  ⟨sampleEntry_mem, C10_dropped_nonneg_smoothness_unit c5Events sampleEntry sampleEntry_mem⟩

end ScrollTiming
